import Mathlib

/-!
Verification development for the MAV dynamics/sensor core
(`src/models/mav_dynamics_control.py`, class `MavDynamics`).

The Python class is shallowly embedded: numpy float arithmetic becomes real
arithmetic, every `np.random.normal(0, sigma)` call becomes an explicit input
(a field of `NoiseDraws`), the instance attributes become the fields of the
`Mav` structure, and each method becomes a state-passing function.  The
external parameter tables (`parameters.aerosonde_parameters`,
`parameters.sensor_parameters`) are abstract structures of real constants.
The external rotation utilities (`tools.rotations`) and the base-class
integrator are not under `src/` and are modelled from the spec where needed.
-/

noncomputable section

open Real

open scoped Classical

open Matrix

/-- Two-argument arctangent, embedding `np.arctan2(y, x)`:
`arctan (y/x)` shifted into the correct quadrant, with the usual conventions
on the axes (`arctan2 0 0 = 0`). -/
def arctan2 (y x : ℝ) : ℝ :=
  if 0 < x then Real.arctan (y / x)
  else if x < 0 then
    (if 0 ≤ y then Real.arctan (y / x) + Real.pi else Real.arctan (y / x) - Real.pi)
  else
    (if 0 < y then Real.pi / 2 else if y < 0 then -(Real.pi / 2) else 0)

/-- Modelled from the spec: `tools.rotations` (not under `src/`) supplies
body/inertial rotation matrices; this is the elementary roll rotation used to
build them. -/
def R_roll (phi : ℝ) : Matrix (Fin 3) (Fin 3) ℝ :=
  !![1, 0, 0; 0, Real.cos phi, -Real.sin phi; 0, Real.sin phi, Real.cos phi]

/-- Modelled from the spec: elementary pitch rotation. -/
def R_pitch (theta : ℝ) : Matrix (Fin 3) (Fin 3) ℝ :=
  !![Real.cos theta, 0, Real.sin theta; 0, 1, 0; -Real.sin theta, 0, Real.cos theta]

/-- Modelled from the spec: elementary yaw rotation. -/
def R_yaw (psi : ℝ) : Matrix (Fin 3) (Fin 3) ℝ :=
  !![Real.cos psi, -Real.sin psi, 0; Real.sin psi, Real.cos psi, 0; 0, 0, 1]

/-- Modelled from the spec: `euler_to_rotation(phi, theta, psi)` from
`tools.rotations` (not under `src/`), the body-to-inertial rotation matrix
`R_yaw psi * R_pitch theta * R_roll phi`. -/
def euler_to_rotation (phi theta psi : ℝ) : Matrix (Fin 3) (Fin 3) ℝ :=
  R_yaw psi * R_pitch theta * R_roll phi

/-- Modelled from the spec: `quaternion_to_euler` from `tools.rotations`
(not under `src/`), the standard aerospace quaternion-to-Euler conversion. -/
def quaternion_to_euler (e0 e1 e2 e3 : ℝ) : ℝ × ℝ × ℝ :=
  (arctan2 (2 * (e0 * e1 + e2 * e3)) (e0 ^ 2 + e3 ^ 2 - e1 ^ 2 - e2 ^ 2),
   Real.arcsin (2 * (e0 * e2 - e1 * e3)),
   arctan2 (2 * (e0 * e3 + e1 * e2)) (e0 ^ 2 + e1 ^ 2 - e2 ^ 2 - e3 ^ 2))

/-- Modelled from the spec: `quaternion_to_rotation` from `tools.rotations`
(not under `src/`), the standard quaternion-to-rotation-matrix conversion. -/
def quaternion_to_rotation (e0 e1 e2 e3 : ℝ) : Matrix (Fin 3) (Fin 3) ℝ :=
  !![e0 ^ 2 + e1 ^ 2 - e2 ^ 2 - e3 ^ 2, 2 * (e1 * e2 - e0 * e3), 2 * (e1 * e3 + e0 * e2);
     2 * (e1 * e2 + e0 * e3), e0 ^ 2 - e1 ^ 2 + e2 ^ 2 - e3 ^ 2, 2 * (e2 * e3 - e0 * e1);
     2 * (e1 * e3 - e0 * e2), 2 * (e2 * e3 + e0 * e1), e0 ^ 2 - e1 ^ 2 - e2 ^ 2 + e3 ^ 2]

/-- Sum of squared components of a 3-vector (squared Euclidean norm). -/
def sumsq3 (v : Fin 3 → ℝ) : ℝ :=
  v 0 ^ 2 + v 1 ^ 2 + v 2 ^ 2

/-- The aerosonde parameter table `parameters.aerosonde_parameters`
(external read-only configuration, imported as `MAV` by the source). -/
structure MAVParams where
  mass : ℝ
  gravity : ℝ
  rho : ℝ
  S_wing : ℝ
  c : ℝ
  b : ℝ
  S_prop : ℝ
  k_motor : ℝ
  M : ℝ
  alpha0 : ℝ
  e : ℝ
  AR : ℝ
  C_L_0 : ℝ
  C_L_alpha : ℝ
  C_L_q : ℝ
  C_L_delta_e : ℝ
  C_D_p : ℝ
  C_D_q : ℝ
  C_D_delta_e : ℝ
  C_Y_0 : ℝ
  C_Y_beta : ℝ
  C_Y_p : ℝ
  C_Y_r : ℝ
  C_Y_delta_a : ℝ
  C_Y_delta_r : ℝ
  C_ell_0 : ℝ
  C_ell_beta : ℝ
  C_ell_p : ℝ
  C_ell_r : ℝ
  C_ell_delta_a : ℝ
  C_ell_delta_r : ℝ
  C_m_0 : ℝ
  C_m_alpha : ℝ
  C_m_q : ℝ
  C_m_delta_e : ℝ
  C_n_0 : ℝ
  C_n_beta : ℝ
  C_n_p : ℝ
  C_n_r : ℝ
  C_n_delta_a : ℝ
  C_n_delta_r : ℝ
  u0 : ℝ

/-- The sensor parameter table `parameters.sensor_parameters` (external
read-only configuration, imported as `SENSOR` by the source).  Only the
constants that appear outside a noise standard deviation are kept; the
standard deviations enter through the explicit noise draws. -/
structure SensorParams where
  ts_gps : ℝ
  gps_k : ℝ

/-- The control-input message `MsgDelta` (repository code not under `src/`).
Modelled from the spec: aileron, elevator, rudder deflections and throttle. -/
structure MsgDelta where
  aileron : ℝ
  elevator : ℝ
  rudder : ℝ
  throttle : ℝ

/-- Modelled from the spec: the default-constructed `MsgDelta()` used by
`initialize_velocity` (all deflections at their defaults). -/
def msgDeltaDefault : MsgDelta :=
  ⟨0, 0, 0, 0⟩

/-- The true-state message `MsgState` (repository code not under `src/`).
Modelled from the spec: the read-only projection consumed by the controller.
The Python field `by` is a Lean keyword and is embedded as `b_y`. -/
structure MsgState where
  north : ℝ
  east : ℝ
  altitude : ℝ
  Va : ℝ
  alpha : ℝ
  beta : ℝ
  phi : ℝ
  theta : ℝ
  psi : ℝ
  Vg : ℝ
  gamma : ℝ
  chi : ℝ
  p : ℝ
  q : ℝ
  r : ℝ
  wn : ℝ
  we : ℝ
  bx : ℝ
  b_y : ℝ
  bz : ℝ
  camera_az : ℝ
  camera_el : ℝ

/-- The sensor message `MsgSensors` (repository code not under `src/`).
Modelled from the spec: gyro, accelerometer, magnetometer, pressure and GPS
channels. -/
structure MsgSensors where
  gyro_x : ℝ
  gyro_y : ℝ
  gyro_z : ℝ
  accel_x : ℝ
  accel_y : ℝ
  accel_z : ℝ
  mag_x : ℝ
  mag_y : ℝ
  mag_z : ℝ
  abs_pressure : ℝ
  diff_pressure : ℝ
  gps_n : ℝ
  gps_e : ℝ
  gps_h : ℝ
  gps_Vg : ℝ
  gps_course : ℝ

/-- One value per `np.random.normal(0, sigma)` call inside `sensors()`;
the ambient random source is made explicit so that `sensors` is a function
of the state and the draws. -/
structure NoiseDraws where
  gyro_x : ℝ
  gyro_y : ℝ
  gyro_z : ℝ
  accel_x : ℝ
  accel_y : ℝ
  accel_z : ℝ
  mag_x : ℝ
  mag_y : ℝ
  mag_z : ℝ
  abs_pres : ℝ
  diff_pres : ℝ
  gps_n : ℝ
  gps_e : ℝ
  gps_h : ℝ
  gps_Vg : ℝ
  gps_course : ℝ

/-- The Python attribute `current_forces_moments` is dynamically typed: the
constructor stores the flat list `[0, 0, 0, 0, 0, 0]` of scalars, while
`_forces_moments` stores a (6,1) numpy column array.  A double index
`[i][0]` succeeds only on the column-array shape. -/
inductive ForcesCell where
  | flatList (xs : List ℝ)
  | colArray (f : Fin 6 → ℝ)

/-- The double index `current_forces_moments[i][0]` used by the
accelerometer model: on the flat scalar list the second index is ill-typed
(a Python `TypeError`), embedded as `none`. -/
def ForcesCell.index0 (cell : ForcesCell) (i : Fin 6) : Option ℝ :=
  match cell with
  | ForcesCell.flatList _ => none
  | ForcesCell.colArray f => some (f i)

/-- The mutable instance state of `MavDynamics` (field names follow the
Python attributes; `_ts_simulation` comes from the base class). -/
structure Mav where
  _state : Fin 13 → ℝ
  _wind : Fin 3 → ℝ
  _forces : Fin 3 → ℝ
  _Va : ℝ
  _alpha : ℝ
  _beta : ℝ
  true_state : MsgState
  _sensors : MsgSensors
  _gps_eta_n : ℝ
  _gps_eta_e : ℝ
  _gps_eta_h : ℝ
  _gps_eta_Vg : Option ℝ
  _gps_eta_course : Option ℝ
  _t_gps : ℝ
  _ts_simulation : ℝ
  current_forces_moments : ForcesCell

/-- Embedding of `MavDynamics._update_velocity_data(wind)` (source lines
144-165): relative wind is body velocity minus the steady wind component
(`wind[0:3]`); the gust half `wind[3:6]` is bound but never used.  Airspeed
is the Euclidean norm of the relative wind, then angle of attack and
sideslip are derived; the sideslip division uses the freshly stored
airspeed. -/
def update_velocity_data (m : Mav) (wind : Fin 6 → ℝ) : Mav :=
  let ur := m._state 3 - wind 0
  let vr := m._state 4 - wind 1
  let wr := m._state 5 - wind 2
  let Va := Real.sqrt (ur ^ 2 + vr ^ 2 + wr ^ 2)
  { m with _Va := Va, _alpha := arctan2 wr ur, _beta := Real.arcsin (vr / Va) }

/-- Embedding of `MavDynamics._motor_thrust_torque(Va, delta_t)` (source
lines 235-263): the live code is the final two assignments — thrust from the
linear-gain prop-exit-velocity model, torque identically zero (the nonlinear
propeller-map solver is commented out in the source). -/
def motor_thrust_torque (P : MAVParams) (Va delta_t : ℝ) : ℝ × ℝ :=
  (0.5 * P.rho * P.S_prop * ((P.k_motor * delta_t) ^ 2 - Va ^ 2), 0)

/-- Embedding of `MavDynamics._forces_moments(delta)` (source lines
167-233).  Returns the 6-vector `(fx, fy, fz, l, m, n)` together with the
updated instance state: the method mutates `true_state.p/q/r` (lines
177-179) and caches the result in `current_forces_moments` (line 232). -/
def forces_moments (P : MAVParams) (m : Mav) (delta : MsgDelta) : (Fin 6 → ℝ) × Mav :=
  let euler := quaternion_to_euler (m._state 6) (m._state 7) (m._state 8) (m._state 9)
  let phi := euler.1
  let theta := euler.2.1
  let psi := euler.2.2
  let ts1 := { m.true_state with p := m._state 10, q := m._state 11, r := m._state 12 }
  let fg := ((euler_to_rotation phi theta psi)ᵀ).mulVec ![0, 0, P.mass * P.gravity]
  let M_minus := Real.exp (-P.M * (m._alpha - P.alpha0))
  let M_plus := Real.exp (P.M * (m._alpha + P.alpha0))
  let sigmoid := (1 + M_minus + M_plus) / ((1 + M_minus) * (1 + M_plus))
  let CL := (1 - sigmoid) * (P.C_L_0 + P.C_L_alpha * m._alpha) +
    sigmoid * (2 * Real.sign m._alpha * Real.sin m._alpha ^ 2 * Real.cos m._alpha)
  let CD := P.C_D_p + (P.C_L_0 + P.C_L_alpha * m._alpha) ^ 2 / (Real.pi * P.e * P.AR)
  let q_bar := 0.5 * P.rho * m._Va ^ 2
  let tt := motor_thrust_torque P m._Va delta.throttle
  let thrust_prop := tt.1
  let torque_prop := tt.2
  let Cx := -CD * Real.cos m._alpha + CL * Real.sin m._alpha
  let Cxq := -P.C_D_q * Real.cos m._alpha + P.C_L_q * Real.sin m._alpha
  let C_X_delta_e := -P.C_D_delta_e * Real.cos m._alpha + P.C_L_delta_e * Real.sin m._alpha
  let fx := fg 0 + q_bar * P.S_wing * (Cx + Cxq * (P.c / (2 * m._Va)) * ts1.q) +
    q_bar * P.S_wing * (C_X_delta_e * delta.elevator) + thrust_prop
  let Cz := -CD * Real.sin m._alpha - CL * Real.cos m._alpha
  let Czq := -P.C_D_q * Real.sin m._alpha - P.C_L_q * Real.cos m._alpha
  let Cz_delta_e := -P.C_D_delta_e * Real.sin m._alpha - P.C_L_delta_e * Real.cos m._alpha
  let fz := fg 2 + q_bar * P.S_wing *
    (Cz + Czq * ((ts1.q * P.c) / (2 * m._Va)) + Cz_delta_e * delta.elevator)
  let fy := fg 1 + q_bar * P.S_wing *
    (P.C_Y_0 + P.C_Y_beta * m._beta + (P.C_Y_p * ts1.p * P.b) / (2 * m._Va) +
      (P.C_Y_r * P.b * ts1.r) / (2 * m._Va)) +
    q_bar * P.S_wing * (P.C_Y_delta_a * delta.aileron + P.C_Y_delta_r * delta.rudder)
  let l := q_bar * P.S_wing * P.b *
    (P.C_ell_0 + P.C_ell_beta * m._beta + P.C_ell_p * ((ts1.p * P.b) / (2 * m._Va)) +
      (P.C_ell_r * ts1.r * P.b) / (2 * m._Va)) +
    q_bar * P.S_wing * P.b * (P.C_ell_delta_a * delta.aileron + P.C_ell_delta_r * delta.rudder) +
    torque_prop
  let mo := q_bar * P.S_wing * P.c *
    (P.C_m_0 + P.C_m_alpha * m._alpha + P.C_m_q * ((ts1.q * P.c) / (2 * m._Va))) +
    q_bar * P.S_wing * P.c * (P.C_m_delta_e * delta.elevator)
  let n := q_bar * P.S_wing * P.b *
    ((P.C_n_0 + P.C_n_beta * m._beta) + P.C_n_p * ((ts1.p * P.b) / (2 * m._Va)) +
      P.C_n_r * ((ts1.r * P.b) / (2 * m._Va))) +
    q_bar * P.S_wing * P.b * (P.C_n_delta_a * delta.aileron + P.C_n_delta_r * delta.rudder)
  let fm : Fin 6 → ℝ := ![fx, fy, fz, l, mo, n]
  (fm, { m with true_state := ts1, current_forces_moments := ForcesCell.colArray fm })

/-- Embedding of `MavDynamics._update_true_state()` (source lines 265-290):
projects the raw state, cached aero state and cached wind into the
`true_state` message.  Uses the modelled external rotation utilities. -/
def update_true_state (m : Mav) : Mav :=
  let euler := quaternion_to_euler (m._state 6) (m._state 7) (m._state 8) (m._state 9)
  let pdot := (quaternion_to_rotation (m._state 6) (m._state 7) (m._state 8) (m._state 9)).mulVec
    ![m._state 3, m._state 4, m._state 5]
  let Vg := Real.sqrt (sumsq3 pdot)
  { m with true_state :=
    { north := m._state 0
      east := m._state 1
      altitude := -(m._state 2)
      Va := m._Va
      alpha := m._alpha
      beta := m._beta
      phi := euler.1
      theta := euler.2.1
      psi := euler.2.2
      Vg := Vg
      gamma := Real.arcsin (-(pdot 2) / Vg)
      chi := arctan2 (pdot 1) (pdot 0)
      p := m._state 10
      q := m._state 11
      r := m._state 12
      wn := m._wind 0
      we := m._wind 1
      bx := 0
      b_y := 0
      bz := 0
      camera_az := 0
      camera_el := 0 } }

/-- Embedding of `MavDynamics.initialize_velocity(Va, alpha, beta)` (source
lines 43-54): stores the aero triple, writes the body-velocity components
into state slots 3..5, then runs one velocity-resolution (zero wind) +
force-computation (default delta) + true-state-projection cycle. -/
def initialize_velocity_step (P : MAVParams) (m : Mav) (Va alpha beta : ℝ) : Mav :=
  let m1 := { m with
    _Va := Va
    _alpha := alpha
    _beta := beta
    _state := Function.update (Function.update (Function.update m._state
      3 (Va * Real.cos alpha * Real.cos beta))
      4 (Va * Real.sin beta))
      5 (Va * Real.sin alpha * Real.cos beta) }
  let m2 := update_velocity_data m1 (fun _ => 0)
  let m3 := (forces_moments P m2 msgDeltaDefault).2
  update_true_state m3

/-- Embedding of `MavDynamics.sensors()` (source lines 73-125).  Gyro,
accelerometer, magnetometer and pressure channels are recomputed on every
call from the true state, the cached force vector, and fresh noise draws.
The accelerometer double index `current_forces_moments[i][0]` is only
well-typed on the column-array shape, so the call fails (`none`) on the
flat-list shape left by the constructor.  The GPS block runs exactly when
`_t_gps >= ts_gps`; in BOTH branches the timer is only incremented by
`_ts_simulation` (lines 122 and 124) — the source never resets it. -/
def sensors (P : MAVParams) (SP : SensorParams) (m : Mav) (nu : NoiseDraws) : Option Mav :=
  match m.current_forces_moments with
  | ForcesCell.flatList _ => none
  | ForcesCell.colArray f =>
    let inc := 66 * (Real.pi / 180)
    let dec := 2.13 * (Real.pi / 180)
    let mi := ((euler_to_rotation 0 (-inc) dec)ᵀ).mulVec ![1, 0, 0]
    let mb := ((euler_to_rotation m.true_state.phi m.true_state.theta m.true_state.psi)ᵀ).mulVec mi
    let due := SP.ts_gps ≤ m._t_gps
    let eta_n := if due then
        Real.exp (-SP.gps_k * SP.ts_gps) * m._gps_eta_n + nu.gps_n * SP.ts_gps
      else m._gps_eta_n
    let eta_e := if due then
        Real.exp (-SP.gps_k * SP.ts_gps) * m._gps_eta_e + nu.gps_e * SP.ts_gps
      else m._gps_eta_e
    let eta_h := if due then
        Real.exp (-SP.gps_k * SP.ts_gps) * m._gps_eta_h + nu.gps_h * SP.ts_gps
      else m._gps_eta_h
    let eta_Vg := if due then some nu.gps_Vg else m._gps_eta_Vg
    let eta_course := if due then some nu.gps_course else m._gps_eta_course
    let msg : MsgSensors :=
      { gyro_x := m.true_state.p + nu.gyro_x
        gyro_y := m.true_state.q + nu.gyro_y
        gyro_z := m.true_state.r + nu.gyro_z
        accel_x := f 0 / P.mass + P.gravity * Real.sin m.true_state.theta + nu.accel_x
        accel_y := f 1 / P.mass - P.gravity * Real.cos m.true_state.theta *
          Real.sin m.true_state.phi + nu.accel_y
        accel_z := f 2 / P.mass - P.gravity * Real.cos m.true_state.theta *
          Real.cos m.true_state.phi + nu.accel_z
        mag_x := mb 0 * nu.mag_x
        mag_y := mb 1 * nu.mag_y
        mag_z := mb 2 * nu.mag_z
        abs_pressure := 101325 * (1 - (-0.0065 * m.true_state.altitude) / 288.15) ^
          ((P.gravity * 0.0289644) / (8.31432 * (-0.0065))) + nu.abs_pres
        diff_pressure := (P.rho * m.true_state.Va ^ 2) / 2 + nu.diff_pres
        gps_n := if due then m.true_state.north + eta_n else m._sensors.gps_n
        gps_e := if due then m.true_state.east + eta_e else m._sensors.gps_e
        gps_h := if due then m.true_state.altitude + eta_h else m._sensors.gps_h
        gps_Vg := if due then
            Real.sqrt ((m.true_state.Va * Real.cos m.true_state.psi + m.true_state.wn) ^ 2 +
              (m.true_state.Va * Real.sin m.true_state.psi + m.true_state.we) ^ 2) + nu.gps_Vg
          else m._sensors.gps_Vg
        gps_course := if due then
            arctan2 (m.true_state.Va * Real.sin m.true_state.psi + m.true_state.we)
              (m.true_state.Va * Real.cos m.true_state.psi + m.true_state.wn) + nu.gps_course
          else m._sensors.gps_course }
    some { m with
      _sensors := msg
      _gps_eta_n := eta_n
      _gps_eta_e := eta_e
      _gps_eta_h := eta_h
      _gps_eta_Vg := eta_Vg
      _gps_eta_course := eta_course
      _t_gps := m._t_gps + m._ts_simulation }

/-- Embedding of `MavDynamics.update(delta, wind)` (source lines 127-140).
The base-class Runge-Kutta step is external ("consumed as a single
operation" per the spec), so it is passed in as the `integrate` argument. -/
def mav_update (P : MAVParams) (integrate : (Fin 13 → ℝ) → (Fin 6 → ℝ) → (Fin 13 → ℝ))
    (m : Mav) (delta : MsgDelta) (wind : Fin 6 → ℝ) : Mav :=
  let fm1 := forces_moments P m delta
  let m2 := { fm1.2 with _state := integrate fm1.2._state fm1.1 }
  let m3 := update_velocity_data m2 wind
  update_true_state m3

/-- The all-zero `MsgState()` message (modelled from the spec: message types
are plain records of scalars initialized to zero). -/
def msgStateZero : MsgState :=
  ⟨0, 0, 0, 0, 0, 0, 0, 0, 0, 0, 0, 0, 0, 0, 0, 0, 0, 0, 0, 0, 0, 0⟩

/-- The all-zero `MsgSensors()` message (modelled from the spec). -/
def msgSensorsZero : MsgSensors :=
  ⟨0, 0, 0, 0, 0, 0, 0, 0, 0, 0, 0, 0, 0, 0, 0, 0⟩

/-- Embedding of `MavDynamics.__init__(Ts)` (source lines 24-40).  The
base-class constructor (not under `src/`) is modelled from the spec as
supplying the initial 13-element state `s0` and the timestep; then the
subclass zeroes the wind and force caches, runs `initialize_velocity(u0,0,0)`
(which caches a column-array force vector), initializes the sensor message
and GPS bias/timer state, and finally OVERWRITES `current_forces_moments`
with the flat scalar list `[0, 0, 0, 0, 0, 0]` (line 40). -/
def mavInit (P : MAVParams) (s0 : Fin 13 → ℝ) (Ts : ℝ) : Mav :=
  let m0 : Mav :=
    { _state := s0
      _wind := fun _ => 0
      _forces := fun _ => 0
      _Va := 0
      _alpha := 0
      _beta := 0
      true_state := msgStateZero
      _sensors := msgSensorsZero
      _gps_eta_n := 0
      _gps_eta_e := 0
      _gps_eta_h := 0
      _gps_eta_Vg := none
      _gps_eta_course := none
      _t_gps := 0
      _ts_simulation := Ts
      current_forces_moments := ForcesCell.flatList [] }
  let m1 := initialize_velocity_step P m0 P.u0 0 0
  { m1 with
    _sensors := msgSensorsZero
    _gps_eta_n := 0
    _gps_eta_e := 0
    _gps_eta_h := 0
    _t_gps := 999
    current_forces_moments := ForcesCell.flatList [0, 0, 0, 0, 0, 0] }

/-- Positivity transfers through multiplication by a positive scalar. -/
lemma pos_iff_of_pos_left {k y : ℝ} (hk : 0 < k) : 0 < k * y ↔ 0 < y := by
  constructor
  · intro h
    by_contra hcon
    push_neg at hcon
    nlinarith
  · exact fun h => mul_pos hk h

/-- `arctan2` is invariant under scaling both arguments by a positive factor. -/
lemma arctan2_mul_left {k y x : ℝ} (hk : 0 < k) : arctan2 (k * y) (k * x) = arctan2 y x := by
  unfold arctan2
  have hdiv : k * y / (k * x) = y / x := mul_div_mul_left y x (ne_of_gt hk)
  rcases lt_trichotomy 0 x with hx | hx | hx
  · rw [if_pos (mul_pos hk hx), if_pos hx, hdiv]
  · rw [← hx, mul_zero]
    simp only [lt_self_iff_false, if_false]
    by_cases h1 : 0 < y
    · rw [if_pos ((pos_iff_of_pos_left hk).mpr h1), if_pos h1]
    · rw [if_neg (fun h => h1 ((pos_iff_of_pos_left hk).mp h)), if_neg h1]
      by_cases h2 : y < 0
      · rw [if_pos (mul_neg_of_pos_of_neg hk h2), if_pos h2]
      · rw [if_neg (not_lt.mpr (mul_nonneg hk.le (not_lt.mp h2))), if_neg h2]
  · have hkx : k * x < 0 := mul_neg_of_pos_of_neg hk hx
    rw [if_neg (asymm hkx), if_pos hkx, if_neg (asymm hx), if_pos hx]
    by_cases hy : 0 ≤ y
    · rw [if_pos (mul_nonneg hk.le hy), if_pos hy, hdiv]
    · push_neg at hy
      rw [if_neg (not_le.mpr (mul_neg_of_pos_of_neg hk hy)), if_neg (not_le.mpr hy), hdiv]

/-- On `(-pi, pi]`, `arctan2` inverts the sine/cosine pair. -/
lemma arctan2_sin_cos {a : ℝ} (h1 : -Real.pi < a) (h2 : a ≤ Real.pi) :
    arctan2 (Real.sin a) (Real.cos a) = a := by
  unfold arctan2
  rcases lt_trichotomy 0 (Real.cos a) with hc | hc | hc
  · rw [if_pos hc]
    have hb1 : -(Real.pi / 2) < a := by
      by_contra hcon
      push_neg at hcon
      have hx : Real.pi / 2 ≤ -a := by linarith
      have hy : -a ≤ Real.pi + Real.pi / 2 := by linarith [Real.pi_pos]
      have := Real.cos_nonpos_of_pi_div_two_le_of_le hx hy
      rw [Real.cos_neg] at this
      linarith
    have hb2 : a < Real.pi / 2 := by
      by_contra hcon
      push_neg at hcon
      have := Real.cos_nonpos_of_pi_div_two_le_of_le hcon (by linarith [Real.pi_pos])
      linarith
    rw [← Real.tan_eq_sin_div_cos, Real.arctan_tan hb1 hb2]
  · rw [if_neg (by linarith), if_neg (by linarith)]
    have hz : Real.cos a = 0 := hc.symm
    rw [Real.cos_eq_zero_iff] at hz
    obtain ⟨n, hn⟩ := hz
    have hπ := Real.pi_pos
    have hlow : (-2 : ℝ) < 2 * (n : ℝ) + 1 := by nlinarith
    have hhigh : 2 * (n : ℝ) + 1 ≤ 2 := by nlinarith
    have hlow' : (-2 : ℤ) < 2 * n + 1 := by exact_mod_cast hlow
    have hhigh' : (2 : ℤ) * n + 1 ≤ 2 := by exact_mod_cast hhigh
    have hn01 : n = 0 ∨ n = -1 := by omega
    rcases hn01 with h0 | h0
    · subst h0
      have ha : a = Real.pi / 2 := by rw [hn]; push_cast; ring
      subst ha
      rw [if_pos (by rw [Real.sin_pi_div_two]; norm_num)]
    · subst h0
      have ha : a = -(Real.pi / 2) := by rw [hn]; push_cast; ring
      subst ha
      have hsin : Real.sin (-(Real.pi / 2)) = -1 := by
        rw [Real.sin_neg, Real.sin_pi_div_two]
      rw [if_neg (by rw [hsin]; norm_num), if_pos (by rw [hsin]; norm_num)]
  · rw [if_neg (by linarith), if_pos hc]
    by_cases hs : 0 ≤ Real.sin a
    · rw [if_pos hs]
      have ha : Real.pi / 2 < a := by
        by_contra hcon
        push_neg at hcon
        rcases le_or_lt (-(Real.pi / 2)) a with h' | h'
        · have := Real.cos_nonneg_of_mem_Icc ⟨h', hcon⟩
          linarith
        · have : Real.sin a < 0 :=
            Real.sin_neg_of_neg_of_neg_pi_lt (by linarith [Real.pi_pos]) h1
          linarith
      have key : Real.arctan (Real.sin a / Real.cos a) = a - Real.pi := by
        rw [← Real.tan_eq_sin_div_cos, ← Real.tan_periodic.sub_eq a]
        exact Real.arctan_tan (by linarith) (by linarith [Real.pi_pos])
      rw [key]
      ring
    · push_neg at hs
      rw [if_neg (not_le.mpr hs)]
      have ha : a < -(Real.pi / 2) := by
        by_contra hcon
        push_neg at hcon
        rcases le_or_lt a (Real.pi / 2) with h' | h'
        · have := Real.cos_nonneg_of_mem_Icc ⟨hcon, h'⟩
          linarith
        · have : 0 ≤ Real.sin a :=
            Real.sin_nonneg_of_nonneg_of_le_pi (by linarith [Real.pi_pos]) h2
          linarith
      have key : Real.arctan (Real.sin a / Real.cos a) = a + Real.pi := by
        rw [← Real.tan_eq_sin_div_cos, ← Real.tan_periodic a]
        exact Real.arctan_tan (by linarith [Real.pi_pos]) (by linarith)
      rw [key]
      ring

/-- `arctan2` of a positively scaled sine/cosine pair recovers the angle. -/
lemma arctan2_scaled_sin_cos {a k : ℝ} (hk : 0 < k) (h1 : -Real.pi < a) (h2 : a ≤ Real.pi) :
    arctan2 (k * Real.sin a) (k * Real.cos a) = a := by
  rw [arctan2_mul_left hk, arctan2_sin_cos h1 h2]

/-- Explicit transpose of the elementary roll rotation. -/
lemma R_roll_transpose (phi : ℝ) : (R_roll phi)ᵀ =
    !![1, 0, 0; 0, Real.cos phi, Real.sin phi; 0, -Real.sin phi, Real.cos phi] := by
  ext i j
  fin_cases i <;> fin_cases j <;> simp [R_roll, Matrix.vecHead, Matrix.vecTail]

/-- Explicit transpose of the elementary pitch rotation. -/
lemma R_pitch_transpose (theta : ℝ) : (R_pitch theta)ᵀ =
    !![Real.cos theta, 0, -Real.sin theta; 0, 1, 0; Real.sin theta, 0, Real.cos theta] := by
  ext i j
  fin_cases i <;> fin_cases j <;> simp [R_pitch, Matrix.vecHead, Matrix.vecTail]

/-- Explicit transpose of the elementary yaw rotation. -/
lemma R_yaw_transpose (psi : ℝ) : (R_yaw psi)ᵀ =
    !![Real.cos psi, Real.sin psi, 0; -Real.sin psi, Real.cos psi, 0; 0, 0, 1] := by
  ext i j
  fin_cases i <;> fin_cases j <;> simp [R_yaw, Matrix.vecHead, Matrix.vecTail]

/-- The elementary roll rotation is orthogonal. -/
lemma R_roll_orth (phi : ℝ) : (R_roll phi)ᵀ * R_roll phi = 1 := by
  have h := Real.sin_sq_add_cos_sq phi
  rw [R_roll_transpose]
  ext i j
  fin_cases i <;> fin_cases j <;>
    simp [R_roll, Matrix.mul_apply, Fin.sum_univ_three, Matrix.one_apply,
      Matrix.vecHead, Matrix.vecTail] <;>
    nlinarith [h]

/-- The elementary pitch rotation is orthogonal. -/
lemma R_pitch_orth (theta : ℝ) : (R_pitch theta)ᵀ * R_pitch theta = 1 := by
  have h := Real.sin_sq_add_cos_sq theta
  rw [R_pitch_transpose]
  ext i j
  fin_cases i <;> fin_cases j <;>
    simp [R_pitch, Matrix.mul_apply, Fin.sum_univ_three, Matrix.one_apply,
      Matrix.vecHead, Matrix.vecTail] <;>
    nlinarith [h]

/-- The elementary yaw rotation is orthogonal. -/
lemma R_yaw_orth (psi : ℝ) : (R_yaw psi)ᵀ * R_yaw psi = 1 := by
  have h := Real.sin_sq_add_cos_sq psi
  rw [R_yaw_transpose]
  ext i j
  fin_cases i <;> fin_cases j <;>
    simp [R_yaw, Matrix.mul_apply, Fin.sum_univ_three, Matrix.one_apply,
      Matrix.vecHead, Matrix.vecTail] <;>
    nlinarith [h]

/-- The modelled `euler_to_rotation` matrix is orthogonal. -/
lemma euler_to_rotation_orth (phi theta psi : ℝ) :
    (euler_to_rotation phi theta psi)ᵀ * euler_to_rotation phi theta psi = 1 := by
  unfold euler_to_rotation
  rw [Matrix.transpose_mul, Matrix.transpose_mul]
  simp only [Matrix.mul_assoc]
  rw [← Matrix.mul_assoc ((R_yaw psi)ᵀ) (R_yaw psi), R_yaw_orth, Matrix.one_mul,
    ← Matrix.mul_assoc ((R_pitch theta)ᵀ) (R_pitch theta), R_pitch_orth, Matrix.one_mul,
    R_roll_orth]

/-- Multiplication by a matrix with orthonormal columns preserves the sum of
squared components. -/
lemma sumsq3_mulVec {M : Matrix (Fin 3) (Fin 3) ℝ} (hM : Mᵀ * M = 1) (v : Fin 3 → ℝ) :
    sumsq3 (M.mulVec v) = sumsq3 v := by
  have key : ∀ i j : Fin 3,
      M 0 i * M 0 j + M 1 i * M 1 j + M 2 i * M 2 j = if i = j then 1 else 0 := by
    intro i j
    have h := congrFun (congrFun hM i) j
    simpa [Matrix.mul_apply, Fin.sum_univ_three, Matrix.one_apply] using h
  have h00 := key 0 0
  have h11 := key 1 1
  have h22 := key 2 2
  have h01 := key 0 1
  have h02 := key 0 2
  have h12 := key 1 2
  rw [if_pos rfl] at h00 h11 h22
  rw [if_neg (by decide : ¬((0 : Fin 3) = 1))] at h01
  rw [if_neg (by decide : ¬((0 : Fin 3) = 2))] at h02
  rw [if_neg (by decide : ¬((1 : Fin 3) = 2))] at h12
  simp only [sumsq3, Matrix.mulVec, Matrix.dotProduct, Fin.sum_univ_three]
  linear_combination (v 0 ^ 2) * h00 + (v 1 ^ 2) * h11 + (v 2 ^ 2) * h22 +
    (2 * v 0 * v 1) * h01 + (2 * v 0 * v 2) * h02 + (2 * v 1 * v 2) * h12

/-- Multiplication by the transpose of an orthogonal matrix also preserves
the sum of squared components. -/
lemma sumsq3_transpose_mulVec {M : Matrix (Fin 3) (Fin 3) ℝ} (hM : Mᵀ * M = 1)
    (v : Fin 3 → ℝ) : sumsq3 (Mᵀ.mulVec v) = sumsq3 v := by
  refine sumsq3_mulVec ?_ v
  rw [Matrix.transpose_transpose]
  exact Matrix.mul_eq_one_comm.mp hM

/-- `_update_velocity_data` only rewrites the cached aero triple. -/
lemma update_velocity_data_state (m : Mav) (wind : Fin 6 → ℝ) :
    (update_velocity_data m wind)._state = m._state := rfl

/-- `_forces_moments` leaves the cached airspeed unchanged. -/
lemma forces_moments_Va (P : MAVParams) (m : Mav) (delta : MsgDelta) :
    ((forces_moments P m delta).2)._Va = m._Va := rfl

/-- `_forces_moments` leaves the cached angle of attack unchanged. -/
lemma forces_moments_alpha (P : MAVParams) (m : Mav) (delta : MsgDelta) :
    ((forces_moments P m delta).2)._alpha = m._alpha := rfl

/-- `_forces_moments` leaves the cached sideslip unchanged. -/
lemma forces_moments_beta (P : MAVParams) (m : Mav) (delta : MsgDelta) :
    ((forces_moments P m delta).2)._beta = m._beta := rfl

/-- `_forces_moments` leaves the raw state vector unchanged. -/
lemma forces_moments_state (P : MAVParams) (m : Mav) (delta : MsgDelta) :
    ((forces_moments P m delta).2)._state = m._state := rfl

/-- `_update_true_state` only rewrites the `true_state` message. -/
lemma update_true_state_Va (m : Mav) : (update_true_state m)._Va = m._Va := rfl

/-- `_update_true_state` leaves the cached angle of attack unchanged. -/
lemma update_true_state_alpha (m : Mav) : (update_true_state m)._alpha = m._alpha := rfl

/-- `_update_true_state` leaves the cached sideslip unchanged. -/
lemma update_true_state_beta (m : Mav) : (update_true_state m)._beta = m._beta := rfl

/-- `_update_true_state` leaves the raw state vector unchanged. -/
lemma update_true_state_state (m : Mav) : (update_true_state m)._state = m._state := rfl

/-- A concrete parameter table used for witnesses (all constants 1). -/
def paramsOne : MAVParams :=
  ⟨1, 1, 1, 1, 1, 1, 1, 1, 1, 1, 1, 1, 1, 1, 1, 1, 1, 1, 1, 1, 1,
   1, 1, 1, 1, 1, 1, 1, 1, 1, 1, 1, 1, 1, 1, 1, 1, 1, 1, 1, 1, 1⟩

/-- A concrete sensor parameter table: GPS sample interval 1 s, Gauss-Markov
constant 1. -/
def sensorParamsOne : SensorParams :=
  ⟨1, 1⟩

/-- All noise draws zero. -/
def noiseZero : NoiseDraws :=
  ⟨0, 0, 0, 0, 0, 0, 0, 0, 0, 0, 0, 0, 0, 0, 0, 0⟩

/-- All noise draws zero except a unit ground-speed GPS draw. -/
def noiseVgOne : NoiseDraws :=
  { noiseZero with gps_Vg := 1 }

/-- A concrete instance state as left by the constructor followed by one
`update()`: zero kinematic state, GPS timer at its construction value `999`,
timestep `0.01`, and a column-array force cache. -/
def mav0 : Mav :=
  { _state := fun _ => 0
    _wind := fun _ => 0
    _forces := fun _ => 0
    _Va := 0
    _alpha := 0
    _beta := 0
    true_state := msgStateZero
    _sensors := msgSensorsZero
    _gps_eta_n := 0
    _gps_eta_e := 0
    _gps_eta_h := 0
    _gps_eta_Vg := none
    _gps_eta_course := none
    _t_gps := 999
    _ts_simulation := 1 / 100
    current_forces_moments := ForcesCell.colArray (fun _ => 0) }

/-- A state whose body velocity is `(3, 0, 4)` (used for witnesses). -/
def mavW : Mav :=
  { mav0 with _state := fun i => if (i : ℕ) = 3 then 3 else if (i : ℕ) = 5 then 4 else 0 }

/-- A wind vector with zero steady component and nonzero gusts. -/
def windG : Fin 6 → ℝ :=
  ![0, 0, 0, 5, 6, 7]

/-- Velocity resolution on a state holding an exact airspeed/alpha/beta
body-velocity triple recovers the triple (zero wind). -/
lemma update_velocity_data_exact (m : Mav) (Va alpha beta : ℝ)
    (hVa : 0 < Va) (h1 : -Real.pi < alpha) (h2 : alpha ≤ Real.pi)
    (h3 : -(Real.pi / 2) < beta) (h4 : beta < Real.pi / 2)
    (hs3 : m._state 3 = Va * Real.cos alpha * Real.cos beta)
    (hs4 : m._state 4 = Va * Real.sin beta)
    (hs5 : m._state 5 = Va * Real.sin alpha * Real.cos beta) :
    (update_velocity_data m (fun _ => 0))._Va = Va
    ∧ (update_velocity_data m (fun _ => 0))._alpha = alpha
    ∧ (update_velocity_data m (fun _ => 0))._beta = beta := by
  have hcb : 0 < Real.cos beta := Real.cos_pos_of_mem_Ioo ⟨h3, h4⟩
  have hnorm : (m._state 3 - 0) ^ 2 + (m._state 4 - 0) ^ 2 + (m._state 5 - 0) ^ 2 = Va ^ 2 := by
    rw [hs3, hs4, hs5]
    linear_combination (Va ^ 2 * Real.cos beta ^ 2) * Real.sin_sq_add_cos_sq alpha +
      Va ^ 2 * Real.sin_sq_add_cos_sq beta
  have hsqrt : Real.sqrt ((m._state 3 - 0) ^ 2 + (m._state 4 - 0) ^ 2 + (m._state 5 - 0) ^ 2) = Va := by
    rw [hnorm]
    exact Real.sqrt_sq hVa.le
  refine ⟨?_, ?_, ?_⟩
  · show Real.sqrt ((m._state 3 - 0) ^ 2 + (m._state 4 - 0) ^ 2 + (m._state 5 - 0) ^ 2) = Va
    exact hsqrt
  · show arctan2 (m._state 5 - 0) (m._state 3 - 0) = alpha
    rw [sub_zero, sub_zero, hs5, hs3,
      show Va * Real.sin alpha * Real.cos beta = (Va * Real.cos beta) * Real.sin alpha from by ring,
      show Va * Real.cos alpha * Real.cos beta = (Va * Real.cos beta) * Real.cos alpha from by ring]
    exact arctan2_scaled_sin_cos (mul_pos hVa hcb) h1 h2
  · show Real.arcsin ((m._state 4 - 0) /
      Real.sqrt ((m._state 3 - 0) ^ 2 + (m._state 4 - 0) ^ 2 + (m._state 5 - 0) ^ 2)) = beta
    rw [hsqrt, sub_zero, hs4, mul_div_cancel_left₀ _ (ne_of_gt hVa)]
    exact Real.arcsin_sin h3.le h4.le

/-- C3: for every body-frame velocity and every 6-component wind vector, the
velocity/wind resolution computes the relative wind as body velocity minus
the steady component only (the result is unchanged under any change of the
gust components), airspeed as the Euclidean norm of that vector, angle of
attack as `atan2(w_r, u_r)`, and sideslip as `asin(v_r / airspeed)`. -/
theorem update_velocity_data_spec (m : Mav) (wind : Fin 6 → ℝ) :
    ((update_velocity_data m wind)._Va =
      Real.sqrt ((m._state 3 - wind 0) ^ 2 + (m._state 4 - wind 1) ^ 2 + (m._state 5 - wind 2) ^ 2)
    ∧ (update_velocity_data m wind)._alpha = arctan2 (m._state 5 - wind 2) (m._state 3 - wind 0)
    ∧ (update_velocity_data m wind)._beta =
      Real.arcsin ((m._state 4 - wind 1) /
        Real.sqrt ((m._state 3 - wind 0) ^ 2 + (m._state 4 - wind 1) ^ 2 + (m._state 5 - wind 2) ^ 2)))
    ∧ ∀ wind' : Fin 6 → ℝ, wind' 0 = wind 0 → wind' 1 = wind 1 → wind' 2 = wind 2 →
      (update_velocity_data m wind')._Va = (update_velocity_data m wind)._Va
      ∧ (update_velocity_data m wind')._alpha = (update_velocity_data m wind)._alpha
      ∧ (update_velocity_data m wind')._beta = (update_velocity_data m wind)._beta := by
  refine ⟨⟨rfl, rfl, rfl⟩, ?_⟩
  intro wind' h0 h1 h2
  refine ⟨?_, ?_, ?_⟩ <;> simp only [update_velocity_data, h0, h1, h2]

/-- Witness for C3: at body velocity `(3, 0, 4)`, replacing a zero wind by a
pure-gust wind (steady part still zero) leaves the computed airspeed, angle
of attack and sideslip unchanged. -/
theorem update_velocity_data_spec_witness :
    (update_velocity_data mavW windG)._Va = (update_velocity_data mavW (fun _ => 0))._Va
    ∧ (update_velocity_data mavW windG)._alpha = (update_velocity_data mavW (fun _ => 0))._alpha
    ∧ (update_velocity_data mavW windG)._beta = (update_velocity_data mavW (fun _ => 0))._beta :=
  (update_velocity_data_spec mavW (fun _ => 0)).2 windG (by norm_num [windG])
    (by norm_num [windG]) (by norm_num [windG])

/-- Reading slot 3 of the velocity-slot update chain. -/
lemma update3_get3 (s : Fin 13 → ℝ) (a b c : ℝ) :
    Function.update (Function.update (Function.update s 3 a) 4 b) 5 c 3 = a := by
  rw [Function.update_noteq (by decide), Function.update_noteq (by decide),
    Function.update_same]

/-- Reading slot 4 of the velocity-slot update chain. -/
lemma update3_get4 (s : Fin 13 → ℝ) (a b c : ℝ) :
    Function.update (Function.update (Function.update s 3 a) 4 b) 5 c 4 = b := by
  rw [Function.update_noteq (by decide), Function.update_same]

/-- Reading slot 5 of the velocity-slot update chain. -/
lemma update3_get5 (s : Fin 13 → ℝ) (a b c : ℝ) :
    Function.update (Function.update (Function.update s 3 a) 4 b) 5 c 5 = c := by
  rw [Function.update_same]

/-- C4: for `Va > 0`, `alpha` in `(-pi, pi]` and `beta` in `(-pi/2, pi/2)`,
`initialize_velocity(Va, alpha, beta)` writes the body velocity
`(Va cos(alpha) cos(beta), Va sin(beta), Va sin(alpha) cos(beta))` into the
state, and the zero-wind velocity-resolution cycle it triggers recomputes
exactly the airspeed `Va`, angle of attack `alpha` and sideslip `beta` that
were passed in. -/
theorem initialize_velocity_roundtrip (P : MAVParams) (m : Mav) (Va alpha beta : ℝ)
    (hVa : 0 < Va) (h1 : -Real.pi < alpha) (h2 : alpha ≤ Real.pi)
    (h3 : -(Real.pi / 2) < beta) (h4 : beta < Real.pi / 2) :
    (initialize_velocity_step P m Va alpha beta)._state 3 = Va * Real.cos alpha * Real.cos beta
    ∧ (initialize_velocity_step P m Va alpha beta)._state 4 = Va * Real.sin beta
    ∧ (initialize_velocity_step P m Va alpha beta)._state 5 = Va * Real.sin alpha * Real.cos beta
    ∧ (initialize_velocity_step P m Va alpha beta)._Va = Va
    ∧ (initialize_velocity_step P m Va alpha beta)._alpha = alpha
    ∧ (initialize_velocity_step P m Va alpha beta)._beta = beta := by
  have hstate : (initialize_velocity_step P m Va alpha beta)._state =
      Function.update (Function.update (Function.update m._state
        3 (Va * Real.cos alpha * Real.cos beta))
        4 (Va * Real.sin beta))
        5 (Va * Real.sin alpha * Real.cos beta) := by
    simp only [initialize_velocity_step, update_true_state_state, forces_moments_state,
      update_velocity_data_state]
  have hs3 : (initialize_velocity_step P m Va alpha beta)._state 3 =
      Va * Real.cos alpha * Real.cos beta := by
    rw [hstate]
    exact update3_get3 _ _ _ _
  have hs4 : (initialize_velocity_step P m Va alpha beta)._state 4 = Va * Real.sin beta := by
    rw [hstate]
    exact update3_get4 _ _ _ _
  have hs5 : (initialize_velocity_step P m Va alpha beta)._state 5 =
      Va * Real.sin alpha * Real.cos beta := by
    rw [hstate]
    exact update3_get5 _ _ _ _
  have hexact := update_velocity_data_exact
    { m with
      _Va := Va
      _alpha := alpha
      _beta := beta
      _state := Function.update (Function.update (Function.update m._state
        3 (Va * Real.cos alpha * Real.cos beta))
        4 (Va * Real.sin beta))
        5 (Va * Real.sin alpha * Real.cos beta) }
    Va alpha beta hVa h1 h2 h3 h4
    (by exact update3_get3 m._state (Va * Real.cos alpha * Real.cos beta) (Va * Real.sin beta) (Va * Real.sin alpha * Real.cos beta))
    (by exact update3_get4 m._state (Va * Real.cos alpha * Real.cos beta) (Va * Real.sin beta) (Va * Real.sin alpha * Real.cos beta))
    (by exact update3_get5 m._state (Va * Real.cos alpha * Real.cos beta) (Va * Real.sin beta) (Va * Real.sin alpha * Real.cos beta))
  refine ⟨hs3, hs4, hs5, ?_, ?_, ?_⟩
  · show ((update_true_state (forces_moments P (update_velocity_data _ _) msgDeltaDefault).2))._Va = Va
    rw [update_true_state_Va, forces_moments_Va]
    exact hexact.1
  · show ((update_true_state (forces_moments P (update_velocity_data _ _) msgDeltaDefault).2))._alpha = alpha
    rw [update_true_state_alpha, forces_moments_alpha]
    exact hexact.2.1
  · show ((update_true_state (forces_moments P (update_velocity_data _ _) msgDeltaDefault).2))._beta = beta
    rw [update_true_state_beta, forces_moments_beta]
    exact hexact.2.2

/-- Witness for C4: `initialize_velocity(25, 0, 0)` yields body velocity
`(25, 0, 0)` and the recomputed aero triple `(25, 0, 0)`. -/
theorem initialize_velocity_roundtrip_witness :
    (initialize_velocity_step paramsOne mav0 25 0 0)._state 3 = 25
    ∧ (initialize_velocity_step paramsOne mav0 25 0 0)._state 4 = 0
    ∧ (initialize_velocity_step paramsOne mav0 25 0 0)._state 5 = 0
    ∧ (initialize_velocity_step paramsOne mav0 25 0 0)._Va = 25
    ∧ (initialize_velocity_step paramsOne mav0 25 0 0)._alpha = 0
    ∧ (initialize_velocity_step paramsOne mav0 25 0 0)._beta = 0 := by
  have h := initialize_velocity_roundtrip paramsOne mav0 25 0 0 (by norm_num)
    (by linarith [Real.pi_pos]) (by linarith [Real.pi_pos])
    (by linarith [Real.pi_pos]) (by linarith [Real.pi_pos])
  obtain ⟨e3, e4, e5, eVa, eal, ebe⟩ := h
  simp only [Real.cos_zero, Real.sin_zero, mul_one, mul_zero, zero_mul] at e3 e4 e5
  exact ⟨e3, e4, e5, eVa, eal, ebe⟩

/-- C5: for every airspeed and throttle command, the propulsion model returns
thrust `0.5 * rho * S_prop * ((k_motor * delta_t)^2 - Va^2)` and exactly zero
propeller torque. -/
theorem motor_thrust_torque_spec (P : MAVParams) (Va delta_t : ℝ) :
    (motor_thrust_torque P Va delta_t).1 =
      0.5 * P.rho * P.S_prop * ((P.k_motor * delta_t) ^ 2 - Va ^ 2)
    ∧ (motor_thrust_torque P Va delta_t).2 = 0 :=
  ⟨rfl, rfl⟩

/-- C6: with positive air density and propeller area, the propulsion model at
zero throttle returns nonpositive thrust for `Va >= 0` and strictly negative
thrust for `Va > 0`. -/
theorem motor_thrust_zero_throttle_neg (P : MAVParams) (Va : ℝ)
    (hrho : 0 < P.rho) (hS : 0 < P.S_prop) :
    (0 ≤ Va → (motor_thrust_torque P Va 0).1 ≤ 0)
    ∧ (0 < Va → (motor_thrust_torque P Va 0).1 < 0) := by
  have key : (motor_thrust_torque P Va 0).1 = -(0.5 * P.rho * P.S_prop * Va ^ 2) := by
    simp only [motor_thrust_torque]
    ring
  have hc : (0 : ℝ) < 0.5 := by norm_num
  constructor <;> intro h <;> rw [key]
  · have hpos : 0 ≤ 0.5 * P.rho * P.S_prop * Va ^ 2 :=
      mul_nonneg (mul_pos (mul_pos hc hrho) hS).le (sq_nonneg Va)
    linarith
  · have hpos : 0 < 0.5 * P.rho * P.S_prop * Va ^ 2 :=
      mul_pos (mul_pos (mul_pos hc hrho) hS) (pow_pos h 2)
    linarith

/-- Witness for C6: unit parameters and airspeed 1 give strictly negative
zero-throttle thrust. -/
theorem motor_thrust_zero_throttle_neg_witness :
    (motor_thrust_torque paramsOne 1 0).1 < 0 :=
  (motor_thrust_zero_throttle_neg paramsOne 1 (by norm_num [paramsOne])
    (by norm_num [paramsOne])).2 (by norm_num)

/-- C7: the sideslip computation divides by exactly the freshly computed
airspeed with no special case for zero (the unguarded `asin(v_r / Va)`
formula holds for all inputs), that divisor is nonzero whenever the
airspeed is positive, and the `c/(2 Va)`, `b/(2 Va)` rate-damping
denominators of the force model are nonzero whenever `Va > 0`; no clamping
guard exists, so the caller must keep the airspeed away from zero. -/
theorem airspeed_division_guards (m : Mav) (wind : Fin 6 → ℝ) :
    ((update_velocity_data m wind)._beta =
      Real.arcsin ((m._state 4 - wind 1) / (update_velocity_data m wind)._Va))
    ∧ (0 < (update_velocity_data m wind)._Va → (update_velocity_data m wind)._Va ≠ 0)
    ∧ (∀ Va : ℝ, 0 < Va → 2 * Va ≠ 0) := by
  refine ⟨rfl, fun h => ne_of_gt h, fun Va h => by positivity⟩

/-- Witness for C7: at body velocity `(3, 0, 4)` and zero wind the computed
airspeed (the sideslip divisor) is nonzero, and the rate-damping denominator
at airspeed 1 is nonzero. -/
theorem airspeed_division_guards_witness :
    (update_velocity_data mavW (fun _ => 0))._beta =
      Real.arcsin ((mavW._state 4 - 0) / (update_velocity_data mavW (fun _ => 0))._Va)
    ∧ (update_velocity_data mavW (fun _ => 0))._Va ≠ 0
    ∧ (2 : ℝ) * 1 ≠ 0 := by
  have h := airspeed_division_guards mavW (fun _ => 0)
  refine ⟨h.1, h.2.1 ?_, h.2.2 1 one_pos⟩
  show 0 < Real.sqrt ((mavW._state 3 - 0) ^ 2 + (mavW._state 4 - 0) ^ 2 + (mavW._state 5 - 0) ^ 2)
  have c3 : ((3 : Fin 13) : ℕ) = 3 := rfl
  have c4 : ((4 : Fin 13) : ℕ) = 4 := rfl
  have c5 : ((5 : Fin 13) : ℕ) = 5 := rfl
  have h3 : mavW._state 3 = 3 := by norm_num [mavW, mav0, c3]
  have h4 : mavW._state 4 = 0 := by norm_num [mavW, mav0, c4]
  have h5 : mavW._state 5 = 4 := by norm_num [mavW, mav0, c5]
  rw [h3, h4, h5]
  rw [show ((3:ℝ) - 0) ^ 2 + ((0:ℝ) - 0) ^ 2 + ((4:ℝ) - 0) ^ 2 = 25 from by norm_num]
  exact Real.sqrt_pos.mpr (by norm_num)

/-- The body-frame magnetic-field vector computed by `sensors()` (source
lines 90-98): the fixed inertial unit vector defined by inclination 66 deg
and declination 2.13 deg, rotated into the body frame by the current
attitude. -/
def mag_field_body (m : Mav) : Fin 3 → ℝ :=
  ((euler_to_rotation m.true_state.phi m.true_state.theta m.true_state.psi)ᵀ).mulVec
    (((euler_to_rotation 0 (-(66 * (Real.pi / 180))) (2.13 * (Real.pi / 180)))ᵀ).mulVec ![1, 0, 0])

/-- C8: each magnetometer axis equals the corresponding body-frame component
of the fixed inertial magnetic-field unit vector multiplied by its own noise
draw — the noise is multiplicative (it scales the component, corrupting
magnitude as well as direction), not additive, and the rotated field vector
has unit Euclidean norm. -/
theorem magnetometer_multiplicative_noise (P : MAVParams) (SP : SensorParams) (m : Mav)
    (nu : NoiseDraws) (f : Fin 6 → ℝ)
    (h : m.current_forces_moments = ForcesCell.colArray f) :
    ∃ m', sensors P SP m nu = some m'
      ∧ m'._sensors.mag_x = mag_field_body m 0 * nu.mag_x
      ∧ m'._sensors.mag_y = mag_field_body m 1 * nu.mag_y
      ∧ m'._sensors.mag_z = mag_field_body m 2 * nu.mag_z
      ∧ sumsq3 (mag_field_body m) = 1 := by
  have hunit : sumsq3 (mag_field_body m) = 1 := by
    unfold mag_field_body
    rw [sumsq3_transpose_mulVec (euler_to_rotation_orth _ _ _),
      sumsq3_transpose_mulVec (euler_to_rotation_orth _ _ _)]
    norm_num [sumsq3]
  cases m with
  | mk st wi fo va al be ts sen en ee eh evg ec tg tss cfm =>
    subst h
    exact ⟨_, rfl, rfl, rfl, rfl, hunit⟩

/-- Witness for C8 at the concrete zero-attitude state. -/
theorem magnetometer_multiplicative_noise_witness :
    ∃ m', sensors paramsOne sensorParamsOne mav0 noiseZero = some m'
      ∧ m'._sensors.mag_x = mag_field_body mav0 0 * noiseZero.mag_x
      ∧ m'._sensors.mag_y = mag_field_body mav0 1 * noiseZero.mag_y
      ∧ m'._sensors.mag_z = mag_field_body mav0 2 * noiseZero.mag_z
      ∧ sumsq3 (mag_field_body mav0) = 1 :=
  magnetometer_multiplicative_noise paramsOne sensorParamsOne mav0 noiseZero (fun _ => 0) rfl

/-- C9: calling `sensors()` on a freshly constructed instance fails, because
the constructor's final assignment replaces the column-array force cache
(which `initialize_velocity` had populated) with a flat list of scalars, on
which the accelerometer's double index `[i][0]` is ill-typed; after any
`update()` (or any other `_forces_moments` evaluation, e.g. another
`initialize_velocity`) the cache is a column array again and `sensors()`
succeeds. -/
theorem sensors_requires_update_precondition :
    (∀ (P : MAVParams) (s0 : Fin 13 → ℝ) (Ts : ℝ),
      (mavInit P s0 Ts).current_forces_moments = ForcesCell.flatList [0, 0, 0, 0, 0, 0])
    ∧ (∀ (xs : List ℝ) (i : Fin 6), ForcesCell.index0 (ForcesCell.flatList xs) i = none)
    ∧ (∀ (P : MAVParams) (SP : SensorParams) (s0 : Fin 13 → ℝ) (Ts : ℝ) (nu : NoiseDraws),
      sensors P SP (mavInit P s0 Ts) nu = none)
    ∧ (∀ (P : MAVParams) (m : Mav) (Va alpha beta : ℝ),
      ∃ f, (initialize_velocity_step P m Va alpha beta).current_forces_moments =
        ForcesCell.colArray f)
    ∧ (∀ (P : MAVParams) (SP : SensorParams)
      (integrate : (Fin 13 → ℝ) → (Fin 6 → ℝ) → (Fin 13 → ℝ))
      (m : Mav) (delta : MsgDelta) (wind : Fin 6 → ℝ) (nu : NoiseDraws),
      ∃ m', sensors P SP (mav_update P integrate m delta wind) nu = some m') := by
  exact ⟨fun P s0 Ts => rfl, fun xs i => rfl, fun P SP s0 Ts nu => rfl,
    fun P m Va alpha beta => ⟨_, rfl⟩, fun P SP ig m d w nu => ⟨_, rfl⟩⟩

/-- C10 counterexample: `sensors()` mutates instance state beyond the sensor
message, the three position random-walk biases and the timer — on a due call
it also writes the `_gps_eta_Vg` and `_gps_eta_course` noise attributes
(source lines 113-114), here changed from absent to `1` and `0`. -/
theorem sensors_mutates_gps_speed_noise_state :
    ∃ m', sensors paramsOne sensorParamsOne mav0 noiseVgOne = some m'
      ∧ mav0._gps_eta_Vg = none
      ∧ m'._gps_eta_Vg = some 1
      ∧ mav0._gps_eta_course = none
      ∧ m'._gps_eta_course = some 0 := by
  refine ⟨_, rfl, rfl, ?_, rfl, ?_⟩
  · norm_num [mav0, sensorParamsOne, noiseVgOne, noiseZero]
  · norm_num [mav0, sensorParamsOne, noiseVgOne, noiseZero]

/-- C10 (amended): a successful `sensors()` call leaves the 13-element state
vector, the cached airspeed/angle-of-attack/sideslip, the cached wind, both
cached force vectors, the timestep and the true-state projection unchanged;
the only state it mutates is the sensor message, the five GPS noise
variables (`_gps_eta_n/e/h` and, on a due call, `_gps_eta_Vg` and
`_gps_eta_course`) and the GPS timer, which advances by one dynamics tick. -/
theorem sensors_frame_condition (P : MAVParams) (SP : SensorParams) (m : Mav)
    (nu : NoiseDraws) (f : Fin 6 → ℝ)
    (h : m.current_forces_moments = ForcesCell.colArray f) :
    ∃ m', sensors P SP m nu = some m'
      ∧ m'._state = m._state
      ∧ m'._wind = m._wind
      ∧ m'._forces = m._forces
      ∧ m'._Va = m._Va
      ∧ m'._alpha = m._alpha
      ∧ m'._beta = m._beta
      ∧ m'.true_state = m.true_state
      ∧ m'.current_forces_moments = m.current_forces_moments
      ∧ m'._ts_simulation = m._ts_simulation
      ∧ m'._t_gps = m._t_gps + m._ts_simulation := by
  cases m with
  | mk st wi fo va al be ts sen en ee eh evg ec tg tss cfm =>
    subst h
    exact ⟨_, rfl, rfl, rfl, rfl, rfl, rfl, rfl, rfl, rfl, rfl, rfl⟩

/-- Witness for the amended C10 frame condition at a concrete state. -/
theorem sensors_frame_condition_witness :
    ∃ m', sensors paramsOne sensorParamsOne mav0 noiseZero = some m'
      ∧ m'._state = mav0._state
      ∧ m'._wind = mav0._wind
      ∧ m'._forces = mav0._forces
      ∧ m'._Va = mav0._Va
      ∧ m'._alpha = mav0._alpha
      ∧ m'._beta = mav0._beta
      ∧ m'.true_state = mav0.true_state
      ∧ m'.current_forces_moments = mav0.current_forces_moments
      ∧ m'._ts_simulation = mav0._ts_simulation
      ∧ m'._t_gps = mav0._t_gps + mav0._ts_simulation :=
  sensors_frame_condition paramsOne sensorParamsOne mav0 noiseZero (fun _ => 0) rfl

/-- C1 (code bug): because the GPS branch adds the dynamics tick to the timer
instead of resetting it (source line 122), the timer stays at or above the
sample interval forever once due (and it starts due, at 999).  Here two
consecutive `sensors()` calls only `0.01 s` apart — not a multiple of the
`1 s` sample interval — both redraw the GPS fields: `gps_Vg` changes from
`0` to `1` between them. -/
theorem gps_updates_every_call_despite_interval :
    ∃ m1 m2 : Mav, sensors paramsOne sensorParamsOne mav0 noiseZero = some m1
      ∧ sensors paramsOne sensorParamsOne m1 noiseVgOne = some m2
      ∧ m1._sensors.gps_Vg = 0
      ∧ m2._sensors.gps_Vg = 1
      ∧ m1._t_gps = 999 + 1 / 100
      ∧ m2._t_gps = 999 + 2 / 100
      ∧ mav0._ts_simulation < sensorParamsOne.ts_gps := by
  refine ⟨_, _, rfl, rfl, ?_, ?_, ?_, ?_, ?_⟩
  · norm_num [mav0, sensorParamsOne, noiseZero, msgStateZero, msgSensorsZero]
  · norm_num [mav0, sensorParamsOne, noiseZero, noiseVgOne, msgStateZero, msgSensorsZero]
  · norm_num [mav0]
  · norm_num [mav0]
  · norm_num [mav0, sensorParamsOne]

/-- C2 (code bug): on a call where the timer has reached the sample interval
(here exactly `1 = ts_gps`), a GPS sample is emitted (`_gps_eta_Vg` gets
written), but the timer is not reset: it becomes `1 + 0.01`, which is NOT
strictly less than the sample interval as the claimed reset-with-overflow
semantics would require. -/
theorem gps_timer_not_reset_on_emit :
    ∃ m1 : Mav, sensors paramsOne sensorParamsOne { mav0 with _t_gps := 1 } noiseZero = some m1
      ∧ m1._gps_eta_Vg = some 0
      ∧ m1._t_gps = 1 + 1 / 100
      ∧ mav0._ts_simulation < sensorParamsOne.ts_gps
      ∧ ¬(m1._t_gps < sensorParamsOne.ts_gps) := by
  refine ⟨_, rfl, ?_, ?_, ?_, ?_⟩
  · norm_num [mav0, sensorParamsOne, noiseZero]
  · norm_num [mav0]
  · norm_num [mav0, sensorParamsOne]
  · norm_num [mav0, sensorParamsOne]
